import Mathlib

/-!
Shallow embedding of the `@major-tech/resource-client` package
(`src/lib/resource-client/client.ts`, `src/lib/resource-client/schemas/response.ts`,
and the error class `ResourceInvokeError`), together with theorems settling the
specification claims about the typed invocation dispatcher.

Effects are made explicit: the pluggable transport (`config.fetch`) becomes a
function argument returning `Except`, the ambient request-context lookup
(`await headers()` then `.get "x-major-user-jwt"`) becomes an
`Except JsThrown (Option String)` argument, and a thrown JavaScript value is
modelled by `JsThrown`. JavaScript numbers that occur in the payloads
(`timeoutMs`, query/status integers) are modelled as `Int`.
-/

/-- A JavaScript value that was thrown: either an `Error` instance carrying a
`message`, or any other value together with its `String(...)` conversion
(mirroring `error instanceof Error ? error.message : String(error)`). -/
inductive JsThrown where
  | error (message : String)
  | other (stringRep : String)


/-- The message extracted from a thrown value by the dispatcher's catch block:
`error instanceof Error ? error.message : String(error)`. -/
def jsErrorMessage : JsThrown → String
  | JsThrown.error m => m
  | JsThrown.other s => s

/-- JSON values, the codomain of `response.json()` and the domain of
`JSON.stringify`. Numbers are modelled as `Int`. -/
inductive Json where
  | null
  | bool (b : Bool)
  | num (n : Int)
  | str (s : String)
  | arr (elems : List Json)
  | obj (fields : List (String × Json))


/-- Lower-case hexadecimal digit for `\u00XX` escapes. -/
def hexDigit (n : Nat) : String :=
  String.singleton (Char.ofNat (if n < 10 then 48 + n else 87 + n))

/-- JSON string escaping of one character, as performed by `JSON.stringify`. -/
def escapeChar (c : Char) : String :=
  if c = '"' then "\\\""
  else if c = '\\' then "\\\\"
  else if c = '\n' then "\\n"
  else if c = '\r' then "\\r"
  else if c = '\t' then "\\t"
  else if c = '\x08' then "\\b"
  else if c = '\x0c' then "\\f"
  else if c.toNat < 32 then "\\u00" ++ hexDigit (c.toNat / 16) ++ hexDigit (c.toNat % 16)
  else String.singleton c

/-- A JSON string literal: quotes around the escaped character sequence. -/
def quoteString (s : String) : String :=
  "\"" ++ String.join (s.data.map escapeChar) ++ "\""

mutual

/-- Serialization of a JSON value to text, mirroring `JSON.stringify` (on values
already free of `undefined`, which object construction below drops, exactly as
`JSON.stringify` drops `undefined`-valued keys). -/
def stringify : Json → String
  | Json.null => "null"
  | Json.bool b => if b then "true" else "false"
  | Json.num n => toString n
  | Json.str s => quoteString s
  | Json.arr xs => "[" ++ stringifyElems xs ++ "]"
  | Json.obj fs => "\x7b" ++ stringifyFields fs ++ "\x7d"

/-- Comma-separated serialization of array elements. -/
def stringifyElems : List Json → String
  | [] => ""
  | [x] => stringify x
  | x :: y :: xs => stringify x ++ "," ++ stringifyElems (y :: xs)

/-- Comma-separated serialization of object fields. -/
def stringifyFields : List (String × Json) → String
  | [] => ""
  | [(k, v)] => quoteString k ++ ":" ++ stringify v
  | (k, v) :: f :: fs => quoteString k ++ ":" ++ stringify v ++ "," ++ stringifyFields (f :: fs)

end

/-- A positional SQL parameter: `string | number | boolean | null`
(the element type of `invokePostgres`'s `params` argument). -/
inductive SqlParam where
  | str (s : String)
  | num (n : Int)
  | bool (b : Bool)
  | null


/-- One value of the `QueryParams` mapping: `string | string[]`. -/
inductive QueryVal where
  | str (s : String)
  | list (xs : List String)


/-- `QueryParams`: a record mapping names to `string | string[]`. -/
abbrev QueryParams := List (String × QueryVal)

/-- `BodyPayload`: the tagged request-body variant
(`json` value, `text` string, or base64 `bytes` with a content type). -/
inductive BodyPayload where
  | json (value : Json)
  | text (value : String)
  | bytes (base64 : String) (contentType : String)


/-- `DbPostgresPayload`: the database/postgresql payload variant as constructed
by `invokePostgres` (client.ts lines 136-142). -/
structure DbPostgresPayload where
  type : String
  subtype : String
  sql : String
  params : Option (List SqlParam)
  timeoutMs : Option Int


/-- `ApiCustomPayload`: the api/custom payload variant as constructed by
`invokeCustomApi` (client.ts lines 171-180). -/
structure ApiCustomPayload where
  type : String
  subtype : String
  method : String
  path : String
  query : Option QueryParams
  headers : Option (List (String × String))
  body : Option BodyPayload
  timeoutMs : Int


/-- `ApiHubSpotPayload`: the api/hubspot payload variant as constructed by
`invokeHubspotApi` (client.ts lines 214-222). It has no `headers` field. -/
structure ApiHubSpotPayload where
  type : String
  subtype : String
  method : String
  path : String
  query : Option QueryParams
  body : Option BodyPayload
  timeoutMs : Int


/-- `StorageS3Payload`: the storage/s3 payload variant as constructed by
`invokeS3` (client.ts lines 253-259). -/
structure StorageS3Payload where
  type : String
  subtype : String
  command : String
  params : List (String × Json)
  timeoutMs : Option Int


/-- `ResourceInvokePayload`: the discriminated union of the four payload
variants (schemas index file). -/
inductive ResourceInvokePayload where
  | dbPostgres (p : DbPostgresPayload)
  | apiCustom (p : ApiCustomPayload)
  | apiHubspot (p : ApiHubSpotPayload)
  | storageS3 (p : StorageS3Payload)


/-- JavaScript `x || d` on an optional number: `undefined`, `0` (and `NaN`,
not modelled) are falsy and yield the default; any other number is kept.
This is the semantics of `options.timeoutMs || 30000` in client.ts. -/
def jsOrInt (x : Option Int) (d : Int) : Int :=
  match x with
  | none => d
  | some v => if v = 0 then d else v

/-- The options object of `invokeCustomApi` (defaulting to an empty object,
i.e. all fields absent). -/
structure CustomApiOptions where
  query : Option QueryParams
  headers : Option (List (String × String))
  body : Option BodyPayload
  timeoutMs : Option Int


/-- The options object of `invokeHubspotApi`: its `body` is restricted to the
json-tagged variant, so only the json value is carried. -/
structure HubspotApiOptions where
  query : Option QueryParams
  body : Option Json
  timeoutMs : Option Int


/-- The options object of `invokeS3`. -/
structure S3Options where
  timeoutMs : Option Int


/-- Payload construction performed by `invokePostgres` (client.ts 136-142):
`sql`, `params` and `timeoutMs` are carried over unchanged. -/
def postgresPayload (sql : String) (params : Option (List SqlParam))
    (timeoutMs : Option Int) : DbPostgresPayload :=
  { type := "database"
    subtype := "postgresql"
    sql := sql
    params := params
    timeoutMs := timeoutMs }

/-- Payload construction performed by `invokeCustomApi` (client.ts 171-180):
`timeoutMs` is `options.timeoutMs || 30000`. -/
def customApiPayload (method : String) (path : String)
    (options : CustomApiOptions) : ApiCustomPayload :=
  { type := "api"
    subtype := "custom"
    method := method
    path := path
    query := options.query
    headers := options.headers
    body := options.body
    timeoutMs := jsOrInt options.timeoutMs 30000 }

/-- Payload construction performed by `invokeHubspotApi` (client.ts 214-222):
like the custom payload but with no `headers` field, and `timeoutMs` is
`options.timeoutMs || 30000`. -/
def hubspotApiPayload (method : String) (path : String)
    (options : HubspotApiOptions) : ApiHubSpotPayload :=
  { type := "api"
    subtype := "hubspot"
    method := method
    path := path
    query := options.query
    body := options.body.map BodyPayload.json
    timeoutMs := jsOrInt options.timeoutMs 30000 }

/-- Payload construction performed by `invokeS3` (client.ts 253-259):
`options.timeoutMs` is carried over unchanged. -/
def s3Payload (command : String) (params : List (String × Json))
    (options : S3Options) : StorageS3Payload :=
  { type := "storage"
    subtype := "s3"
    command := command
    params := params
    timeoutMs := options.timeoutMs }

/-- JSON encoding of one SQL parameter. -/
def sqlParamToJson : SqlParam → Json
  | SqlParam.str s => Json.str s
  | SqlParam.num n => Json.num n
  | SqlParam.bool b => Json.bool b
  | SqlParam.null => Json.null

/-- JSON encoding of one query-parameter value. -/
def queryValToJson : QueryVal → Json
  | QueryVal.str s => Json.str s
  | QueryVal.list xs => Json.arr (xs.map Json.str)

/-- JSON encoding of the `query` record. -/
def queryParamsToJson (q : QueryParams) : Json :=
  Json.obj (q.map fun kv => (kv.1, queryValToJson kv.2))

/-- JSON encoding of the caller-supplied `headers` record. -/
def headersToJson (h : List (String × String)) : Json :=
  Json.obj (h.map fun kv => (kv.1, Json.str kv.2))

/-- JSON encoding of a tagged request body. -/
def bodyPayloadToJson : BodyPayload → Json
  | BodyPayload.json v => Json.obj [("type", Json.str "json"), ("value", v)]
  | BodyPayload.text s => Json.obj [("type", Json.str "text"), ("value", Json.str s)]
  | BodyPayload.bytes b64 ct =>
      Json.obj [("type", Json.str "bytes"), ("base64", Json.str b64),
                ("contentType", Json.str ct)]

/-- An optional object field: absent (`undefined`, dropped by
`JSON.stringify`) or present with a JSON value. -/
def optField (k : String) : Option Json → List (String × Json)
  | none => []
  | some v => [(k, v)]

/-- Serialized object fields of a database/postgresql payload, in the insertion
order of the object literal in `invokePostgres`. -/
def dbPostgresPayloadFields (p : DbPostgresPayload) : List (String × Json) :=
  [("type", Json.str p.type), ("subtype", Json.str p.subtype), ("sql", Json.str p.sql)]
    ++ optField "params" (p.params.map fun xs => Json.arr (xs.map sqlParamToJson))
    ++ optField "timeoutMs" (p.timeoutMs.map Json.num)

/-- Serialized object fields of an api/custom payload, in the insertion order
of the object literal in `invokeCustomApi`. -/
def apiCustomPayloadFields (p : ApiCustomPayload) : List (String × Json) :=
  [("type", Json.str p.type), ("subtype", Json.str p.subtype),
   ("method", Json.str p.method), ("path", Json.str p.path)]
    ++ optField "query" (p.query.map queryParamsToJson)
    ++ optField "headers" (p.headers.map headersToJson)
    ++ optField "body" (p.body.map bodyPayloadToJson)
    ++ [("timeoutMs", Json.num p.timeoutMs)]

/-- Serialized object fields of an api/hubspot payload, in the insertion order
of the object literal in `invokeHubspotApi`. -/
def apiHubspotPayloadFields (p : ApiHubSpotPayload) : List (String × Json) :=
  [("type", Json.str p.type), ("subtype", Json.str p.subtype),
   ("method", Json.str p.method), ("path", Json.str p.path)]
    ++ optField "query" (p.query.map queryParamsToJson)
    ++ optField "body" (p.body.map bodyPayloadToJson)
    ++ [("timeoutMs", Json.num p.timeoutMs)]

/-- Serialized object fields of a storage/s3 payload, in the insertion order of
the object literal in `invokeS3`. -/
def storageS3PayloadFields (p : StorageS3Payload) : List (String × Json) :=
  [("type", Json.str p.type), ("subtype", Json.str p.subtype),
   ("command", Json.str p.command), ("params", Json.obj p.params)]
    ++ optField "timeoutMs" (p.timeoutMs.map Json.num)

/-- JSON encoding of a payload, as `JSON.stringify` sees it (absent optional
fields dropped). -/
def payloadToJson : ResourceInvokePayload → Json
  | ResourceInvokePayload.dbPostgres p => Json.obj (dbPostgresPayloadFields p)
  | ResourceInvokePayload.apiCustom p => Json.obj (apiCustomPayloadFields p)
  | ResourceInvokePayload.apiHubspot p => Json.obj (apiHubspotPayloadFields p)
  | ResourceInvokePayload.storageS3 p => Json.obj (storageS3PayloadFields p)

/-- Keys of the payload object literal as written in client.ts. In JavaScript
an object literal key is present even when its value is `undefined`, so this
list is constant per payload family. -/
def payloadObjectKeys : ResourceInvokePayload → List String
  | ResourceInvokePayload.dbPostgres _ =>
      ["type", "subtype", "sql", "params", "timeoutMs"]
  | ResourceInvokePayload.apiCustom _ =>
      ["type", "subtype", "method", "path", "query", "headers", "body", "timeoutMs"]
  | ResourceInvokePayload.apiHubspot _ =>
      ["type", "subtype", "method", "path", "query", "body", "timeoutMs"]
  | ResourceInvokePayload.storageS3 _ =>
      ["type", "subtype", "command", "params", "timeoutMs"]

/-- Modelled from the spec, section 3: the set of fields legal for each
`(type, subtype)` tag pair (the schema files declaring the payload interfaces
are not under src/, only the construction sites in client.ts are). Used for the
refinement comparison with `payloadObjectKeys`. -/
def specLegalKeys (type : String) (subtype : String) : List String :=
  if type = "database" ∧ subtype = "postgresql" then
    ["type", "subtype", "sql", "params", "timeoutMs"]
  else if type = "api" ∧ subtype = "custom" then
    ["type", "subtype", "method", "path", "query", "headers", "body", "timeoutMs"]
  else if type = "api" ∧ subtype = "hubspot" then
    ["type", "subtype", "method", "path", "query", "body", "timeoutMs"]
  else if type = "storage" ∧ subtype = "s3" then
    ["type", "subtype", "command", "params", "timeoutMs"]
  else []

/-- `ResourceInvokeError` (errors.ts): an `Error` subclass with name
"ResourceInvokeError", a message, and optional `httpStatus` and `requestId`. -/
structure ResourceInvokeError where
  name : String
  message : String
  httpStatus : Option Int
  requestId : Option String

/-- `ClientConfig`: base URL and JWT token (the pluggable `fetch` is passed
explicitly to `invoke` in this embedding). -/
structure ClientConfig where
  baseUrl : String
  majorJWTToken : String

/-- The configuration state held by a constructed `ResourceClient`. -/
structure ResourceClient where
  baseUrl : String
  majorJWTToken : String

/-- Whether the string ends in a slash, i.e. whether the regex pattern of a
single slash anchored at the end matches. -/
def endsWithSlash (s : String) : Bool :=
  s.data.getLast? = some '/'

/-- Base URL normalization performed by the constructor:
`config.baseUrl.replace(/\/$/, "")` removes one trailing slash if present. -/
def normalizeBaseUrl (s : String) : String :=
  if endsWithSlash s then String.mk s.data.dropLast else s

/-- The `ResourceClient` constructor (client.ts 62-68): stores the normalized
base URL and the token. -/
def ResourceClient.ofConfig (config : ClientConfig) : ResourceClient :=
  { baseUrl := normalizeBaseUrl config.baseUrl
    majorJWTToken := config.majorJWTToken }

/-- The outbound request handed to the transport primitive. -/
structure FetchRequest where
  url : String
  method : String
  headers : List (String × String)
  body : String

/-- The transport's response object: its `json()` method either yields a parsed
JSON value or throws (non-JSON body). -/
structure FetchResponse where
  json : Except JsThrown Json

/-- The possible outcomes of a call to `invoke`: a returned envelope (the
parsed JSON, asserted to be an `InvokeResponse` without validation), a thrown
`ResourceInvokeError`, or a JavaScript value propagating as its original type. -/
inductive InvokeOutcome where
  | success (envelope : Json)
  | invokeError (e : ResourceInvokeError)
  | thrown (e : JsThrown)

/-- The request URL built by `invoke` (client.ts 86): the fixed route pattern
with `applicationId` and `resourceId` templated in. -/
def ResourceClient.requestUrl (c : ResourceClient)
    (applicationId : String) (resourceId : String) : String :=
  c.baseUrl ++ "/internal/apps/v1/" ++ applicationId ++ "/resource/"
    ++ resourceId ++ "/invoke"

/-- The `fetch` invocation built by `invoke` (client.ts 96-104): POST to the
templated URL with content-type and service-credential headers, the user JWT
forwarded when truthy (JavaScript `userJWT ? ... : ...`, so `null` and the
empty string are both dropped), and the serialized
`body = JSON.stringify(\x7b payload, invocationKey \x7d)`. -/
def ResourceClient.mkFetchRequest (c : ResourceClient) (userJWT : Option String)
    (applicationId : String) (resourceId : String)
    (payload : ResourceInvokePayload) (invocationKey : String) : FetchRequest :=
  { url := c.requestUrl applicationId resourceId
    method := "POST"
    headers :=
      [("Content-Type", "application/json"), ("x-major-jwt", c.majorJWTToken)]
        ++ (match userJWT with
            | some jwt => if jwt = "" then [] else [("x-major-user-jwt", jwt)]
            | none => [])
    body := stringify (Json.obj
      [("payload", payloadToJson payload), ("invocationKey", Json.str invocationKey)]) }

/-- The catch block of `invoke` (client.ts 110-114): wrap the thrown value's
message in a `ResourceInvokeError`, leaving `httpStatus` and `requestId`
unset. -/
def wrapInvokeError (e : JsThrown) : ResourceInvokeError :=
  { name := "ResourceInvokeError"
    message := "Failed to invoke resource: " ++ jsErrorMessage e
    httpStatus := none
    requestId := none }

/-- `ResourceClient.invoke` (client.ts 80-115). The ambient lookup
(`await headers()` then `.get`) happens before the try block, so a throw there
propagates unwrapped and no request is made. Otherwise exactly one transport
call is made; a throw from the transport or from `response.json()` is wrapped
as a `ResourceInvokeError`, and a parsed body is returned as-is. The second
component collects the requests issued to the transport. -/
def ResourceClient.invoke (c : ResourceClient)
    (transport : FetchRequest → Except JsThrown FetchResponse)
    (ambientUserJWT : Except JsThrown (Option String))
    (applicationId : String) (resourceId : String)
    (payload : ResourceInvokePayload) (invocationKey : String) :
    InvokeOutcome × List FetchRequest :=
  match ambientUserJWT with
  | Except.error e => (InvokeOutcome.thrown e, [])
  | Except.ok userJWT =>
    let req := c.mkFetchRequest userJWT applicationId resourceId payload invocationKey
    match transport req with
    | Except.error e => (InvokeOutcome.invokeError (wrapInvokeError e), [req])
    | Except.ok response =>
      match response.json with
      | Except.error e => (InvokeOutcome.invokeError (wrapInvokeError e), [req])
      | Except.ok data => (InvokeOutcome.success data, [req])

/-- `invokePostgres` (client.ts 128-145): builds the postgres payload and
delegates to `invoke`. -/
def ResourceClient.invokePostgres (c : ResourceClient)
    (transport : FetchRequest → Except JsThrown FetchResponse)
    (ambientUserJWT : Except JsThrown (Option String))
    (applicationId : String) (resourceId : String) (sql : String)
    (params : Option (List SqlParam)) (invocationKey : String)
    (timeoutMs : Option Int) : InvokeOutcome × List FetchRequest :=
  c.invoke transport ambientUserJWT applicationId resourceId
    (ResourceInvokePayload.dbPostgres (postgresPayload sql params timeoutMs)) invocationKey

/-- `invokeCustomApi` (client.ts 158-188): builds the custom API payload and
delegates to `invoke`. -/
def ResourceClient.invokeCustomApi (c : ResourceClient)
    (transport : FetchRequest → Except JsThrown FetchResponse)
    (ambientUserJWT : Except JsThrown (Option String))
    (applicationId : String) (resourceId : String) (method : String)
    (path : String) (invocationKey : String) (options : CustomApiOptions) :
    InvokeOutcome × List FetchRequest :=
  c.invoke transport ambientUserJWT applicationId resourceId
    (ResourceInvokePayload.apiCustom (customApiPayload method path options)) invocationKey

/-- `invokeHubspotApi` (client.ts 202-230): builds the HubSpot payload and
delegates to `invoke`. -/
def ResourceClient.invokeHubspotApi (c : ResourceClient)
    (transport : FetchRequest → Except JsThrown FetchResponse)
    (ambientUserJWT : Except JsThrown (Option String))
    (applicationId : String) (resourceId : String) (method : String)
    (path : String) (invocationKey : String) (options : HubspotApiOptions) :
    InvokeOutcome × List FetchRequest :=
  c.invoke transport ambientUserJWT applicationId resourceId
    (ResourceInvokePayload.apiHubspot (hubspotApiPayload method path options)) invocationKey

/-- `invokeS3` (client.ts 243-267): builds the S3 payload and delegates to
`invoke`. -/
def ResourceClient.invokeS3 (c : ResourceClient)
    (transport : FetchRequest → Except JsThrown FetchResponse)
    (ambientUserJWT : Except JsThrown (Option String))
    (applicationId : String) (resourceId : String) (command : String)
    (params : List (String × Json)) (invocationKey : String)
    (options : S3Options) : InvokeOutcome × List FetchRequest :=
  c.invoke transport ambientUserJWT applicationId resourceId
    (ResourceInvokePayload.storageS3 (s3Payload command params options)) invocationKey

/-- A sample configured client, used by concrete witnesses. -/
def clientA : ResourceClient :=
  ResourceClient.ofConfig { baseUrl := "https://api.example.com", majorJWTToken := "svc-token" }

/-- A sample payload, used by concrete witnesses. -/
def payloadA : ResourceInvokePayload :=
  ResourceInvokePayload.dbPostgres (postgresPayload "SELECT 1" none none)

/-- A transport that round-trips successfully with a null JSON body. -/
def transportNull : FetchRequest → Except JsThrown FetchResponse :=
  fun _ => Except.ok { json := Except.ok Json.null }

/-- A transport that throws an `Error` with message "boom" on every request. -/
def transportFail : FetchRequest → Except JsThrown FetchResponse :=
  fun _ => Except.error (JsThrown.error "boom")

/-- An `ok:false` envelope, as in the spec's custom-API failure scenario. -/
def okFalseEnvelope : Json :=
  Json.obj [("ok", Json.bool false), ("requestId", Json.str "r2"),
            ("error", Json.obj [("message", Json.str "upstream down"),
                                ("httpStatus", Json.num 502)])]

/-- A transport whose response body parses as the `ok:false` envelope. -/
def transportOkFalse : FetchRequest → Except JsThrown FetchResponse :=
  fun _ => Except.ok { json := Except.ok okFalseEnvelope }

/-- The error value produced by the catch block for a thrown
`Error("boom")`. -/
def errA : ResourceInvokeError :=
  { name := "ResourceInvokeError"
    message := "Failed to invoke resource: boom"
    httpStatus := none
    requestId := none }

/-- Claim C1: when the transport function throws on the request that `invoke`
issues, the call resolves by raising a `ResourceInvokeError` whose message
contains the thrown value's message (it is exactly the fixed text followed by
that message), never returns a normal `InvokeResponse`, and never lets the
original exception propagate as its original type. -/
theorem invoke_wraps_transport_throw (c : ResourceClient)
    (transport : FetchRequest → Except JsThrown FetchResponse)
    (userJWT : Option String) (applicationId resourceId : String)
    (payload : ResourceInvokePayload) (invocationKey : String) (e : JsThrown)
    (h : transport (c.mkFetchRequest userJWT applicationId resourceId payload invocationKey)
          = Except.error e) :
    (c.invoke transport (Except.ok userJWT) applicationId resourceId payload invocationKey).1
      = InvokeOutcome.invokeError
          { name := "ResourceInvokeError"
            message := "Failed to invoke resource: " ++ jsErrorMessage e
            httpStatus := none
            requestId := none } := by
  unfold ResourceClient.invoke
  simp only [h]
  rfl

/-- Witness for C1 at a concrete client, payload and throwing transport. -/
theorem invoke_wraps_transport_throw_witness :
    (clientA.invoke (fun _ => Except.error (JsThrown.error "network down"))
        (Except.ok none) "app-1" "res-1" payloadA "key-1").1
      = InvokeOutcome.invokeError
          { name := "ResourceInvokeError"
            message := "Failed to invoke resource: network down"
            httpStatus := none
            requestId := none } :=
  invoke_wraps_transport_throw clientA
    (fun _ => Except.error (JsThrown.error "network down")) none
    "app-1" "res-1" payloadA "key-1" (JsThrown.error "network down") rfl

/-- Claim C2: when the transport response's body parses as JSON, `invoke`
returns the parsed value as the envelope unchanged — for every parsed value,
including `ok:false` envelopes, the outcome is `success data` and no error is
raised. -/
theorem invoke_returns_envelope_verbatim (c : ResourceClient)
    (transport : FetchRequest → Except JsThrown FetchResponse)
    (userJWT : Option String) (applicationId resourceId : String)
    (payload : ResourceInvokePayload) (invocationKey : String)
    (response : FetchResponse) (data : Json)
    (h1 : transport (c.mkFetchRequest userJWT applicationId resourceId payload invocationKey)
            = Except.ok response)
    (h2 : response.json = Except.ok data) :
    (c.invoke transport (Except.ok userJWT) applicationId resourceId payload invocationKey).1
      = InvokeOutcome.success data := by
  unfold ResourceClient.invoke
  simp only [h1, h2]

/-- Witness for C2 at a concrete `ok:false` envelope: the envelope is returned
as ordinary data, not raised. -/
theorem invoke_returns_envelope_verbatim_witness :
    (clientA.invoke transportOkFalse
        (Except.ok none) "app-1" "res-1" payloadA "key-1").1
      = InvokeOutcome.success okFalseEnvelope :=
  invoke_returns_envelope_verbatim clientA transportOkFalse none
    "app-1" "res-1" payloadA "key-1"
    { json := Except.ok okFalseEnvelope } okFalseEnvelope rfl rfl

/-- Claim C3, counterexample: supplying `timeoutMs = 0` to the custom-API
payload construction does not yield a payload whose `timeoutMs` equals the
supplied value — JavaScript `0 || 30000` evaluates to `30000`. -/
theorem api_timeout_zero_counterexample :
    (customApiPayload "GET" "/p"
        { query := none, headers := none, body := none, timeoutMs := some 0 }).timeoutMs ≠ 0
    ∧ (customApiPayload "GET" "/p"
        { query := none, headers := none, body := none, timeoutMs := some 0 }).timeoutMs
        = 30000 := by
  constructor
  · decide
  · rfl

/-- Claim C3, amended: with no caller-supplied `timeoutMs` the custom-API and
HubSpot payloads carry exactly 30000; a supplied nonzero value is carried
exactly; a supplied `0` is falsy under the JavaScript `||` default and also
yields 30000. -/
theorem api_timeout_default_amended (method path : String)
    (q : Option QueryParams) (hs : Option (List (String × String)))
    (b : Option BodyPayload) (q2 : Option QueryParams) (b2 : Option Json) :
    (customApiPayload method path
        { query := q, headers := hs, body := b, timeoutMs := none }).timeoutMs = 30000
    ∧ (hubspotApiPayload method path
        { query := q2, body := b2, timeoutMs := none }).timeoutMs = 30000
    ∧ (∀ v : Int, v ≠ 0 →
        (customApiPayload method path
            { query := q, headers := hs, body := b, timeoutMs := some v }).timeoutMs = v
        ∧ (hubspotApiPayload method path
            { query := q2, body := b2, timeoutMs := some v }).timeoutMs = v)
    ∧ (customApiPayload method path
        { query := q, headers := hs, body := b, timeoutMs := some 0 }).timeoutMs = 30000
    ∧ (hubspotApiPayload method path
        { query := q2, body := b2, timeoutMs := some 0 }).timeoutMs = 30000 := by
  refine ⟨rfl, rfl, ?_, rfl, rfl⟩
  intro v hv
  constructor
  · simp [customApiPayload, jsOrInt, hv]
  · simp [hubspotApiPayload, jsOrInt, hv]

/-- Witness for C3 amended at a concrete supplied nonzero timeout. -/
theorem api_timeout_default_amended_witness :
    (customApiPayload "GET" "/p"
        { query := none, headers := none, body := none, timeoutMs := some 5 }).timeoutMs = 5 :=
  ((api_timeout_default_amended "GET" "/p" none none none none none).2.2.1 5
    (by decide)).1

/-- Claim C4, counterexample: when the ambient request context supplies the
end-user credential as the empty string, the outbound request carries no
end-user-credential header — the JavaScript truthiness check drops it — so the
header is not present whenever the ambient context supplies a credential. -/
theorem user_jwt_empty_not_forwarded_counterexample :
    ((clientA.invoke transportNull (Except.ok (some "")) "app-1" "res-1" payloadA "key-1").2.map
      fun r => r.headers.lookup "x-major-user-jwt") = [none] := by rfl

/-- Claim C4, amended: every call to `invoke` with a successful ambient lookup
issues exactly one request: a POST to the templated route, with the serialized
body, the content-type and service-credential headers, and the
end-user-credential header present if and only if the ambient context supplies
a non-empty end-user credential, in which case it is forwarded unmodified. -/
theorem invoke_request_shape_amended (c : ResourceClient)
    (transport : FetchRequest → Except JsThrown FetchResponse)
    (userJWT : Option String) (applicationId resourceId : String)
    (payload : ResourceInvokePayload) (invocationKey : String) :
    ∃ req : FetchRequest,
      (c.invoke transport (Except.ok userJWT) applicationId resourceId payload invocationKey).2
        = [req]
      ∧ req.url = c.baseUrl ++ "/internal/apps/v1/" ++ applicationId ++ "/resource/"
          ++ resourceId ++ "/invoke"
      ∧ req.method = "POST"
      ∧ req.body = stringify (Json.obj
          [("payload", payloadToJson payload), ("invocationKey", Json.str invocationKey)])
      ∧ req.headers.lookup "Content-Type" = some "application/json"
      ∧ req.headers.lookup "x-major-jwt" = some c.majorJWTToken
      ∧ req.headers.lookup "x-major-user-jwt" =
          (match userJWT with
           | some jwt => if jwt = "" then none else some jwt
           | none => none) := by
  refine ⟨c.mkFetchRequest userJWT applicationId resourceId payload invocationKey,
    ?_, rfl, rfl, rfl, ?_, ?_, ?_⟩
  · unfold ResourceClient.invoke
    cases htr : transport (c.mkFetchRequest userJWT applicationId resourceId payload invocationKey) with
    | error e => simp [htr]
    | ok resp =>
      cases hj : resp.json with
      | error e => simp [htr, hj]
      | ok data => simp [htr, hj]
  · simp [ResourceClient.mkFetchRequest, List.lookup]
  · simp [ResourceClient.mkFetchRequest, List.lookup]
  · cases userJWT with
    | none => simp [ResourceClient.mkFetchRequest, List.lookup]
    | some jwt =>
      by_cases hj : jwt = ""
      · simp [ResourceClient.mkFetchRequest, List.lookup, hj]
      · simp [ResourceClient.mkFetchRequest, List.lookup, hj]

/-- Claim C5: every payload constructed by one of the four convenience
operations has exactly the field set legal for its tag pair (the legal sets
taken from the spec, section 3), every HubSpot payload has the field set of the
custom-API payload minus `headers`, and no HubSpot payload exposes a `headers`
field. -/
theorem payload_field_sets_legal (sql : String) (prms : Option (List SqlParam))
    (t : Option Int) (m p : String) (o : CustomApiOptions) (m2 p2 : String)
    (o2 : HubspotApiOptions) (cmd : String) (sp : List (String × Json))
    (o3 : S3Options) :
    payloadObjectKeys (ResourceInvokePayload.dbPostgres (postgresPayload sql prms t))
        = specLegalKeys "database" "postgresql"
    ∧ payloadObjectKeys (ResourceInvokePayload.apiCustom (customApiPayload m p o))
        = specLegalKeys "api" "custom"
    ∧ payloadObjectKeys (ResourceInvokePayload.apiHubspot (hubspotApiPayload m2 p2 o2))
        = specLegalKeys "api" "hubspot"
    ∧ payloadObjectKeys (ResourceInvokePayload.storageS3 (s3Payload cmd sp o3))
        = specLegalKeys "storage" "s3"
    ∧ payloadObjectKeys (ResourceInvokePayload.apiHubspot (hubspotApiPayload m2 p2 o2))
        = (payloadObjectKeys
            (ResourceInvokePayload.apiCustom (customApiPayload m p o))).erase "headers"
    ∧ "headers" ∉ payloadObjectKeys (ResourceInvokePayload.apiHubspot (hubspotApiPayload m2 p2 o2)) := by
  refine ⟨rfl, rfl, rfl, rfl, rfl, ?_⟩
  simp [payloadObjectKeys]

/-- Claim C6: for every base URL that does not end in a slash, a client
configured with it and a client configured with it plus a trailing slash build
identical request URLs for identical invoke arguments. -/
theorem baseUrl_trailing_slash_same_url (b tok : String)
    (h : endsWithSlash b = false) (applicationId resourceId : String) :
    (ResourceClient.ofConfig { baseUrl := b ++ "/", majorJWTToken := tok }).requestUrl
        applicationId resourceId
      = (ResourceClient.ofConfig { baseUrl := b, majorJWTToken := tok }).requestUrl
        applicationId resourceId := by
  have hd : (b ++ "/").data = b.data ++ ['/'] := by rw [String.data_append]
  have h2 : endsWithSlash (b ++ "/") = true := by simp [endsWithSlash, hd]
  have h3 : normalizeBaseUrl (b ++ "/") = b := by simp [normalizeBaseUrl, h2, hd]
  have h4 : normalizeBaseUrl b = b := by simp [normalizeBaseUrl, h]
  simp [ResourceClient.ofConfig, ResourceClient.requestUrl, h3, h4]

/-- Witness for C6 at a concrete base URL without a trailing slash. -/
theorem baseUrl_trailing_slash_same_url_witness :
    (ResourceClient.ofConfig
        { baseUrl := "https://api.example.com" ++ "/", majorJWTToken := "tok" }).requestUrl
        "app-1" "res-1"
      = (ResourceClient.ofConfig
        { baseUrl := "https://api.example.com", majorJWTToken := "tok" }).requestUrl
        "app-1" "res-1" :=
  baseUrl_trailing_slash_same_url "https://api.example.com" "tok" (by decide)
    "app-1" "res-1"

/-- Claim C7: the database and storage payload constructions carry the
caller-supplied `timeoutMs` through unchanged, including leaving it absent when
the caller supplies none; no default is imposed. -/
theorem db_storage_timeout_passthrough (sql : String)
    (prms : Option (List SqlParam)) (t : Option Int) (cmd : String)
    (sp : List (String × Json)) (t2 : Option Int) :
    (postgresPayload sql prms t).timeoutMs = t
    ∧ (s3Payload cmd sp { timeoutMs := t2 }).timeoutMs = t2 :=
  ⟨rfl, rfl⟩

/-- Claim C8: every call to `invoke` whose ambient lookup succeeds applies the
injected transport function exactly once, whether the call resolves to an
envelope or raises an invocation error — no retry is ever issued. -/
theorem invoke_transport_called_once (c : ResourceClient)
    (transport : FetchRequest → Except JsThrown FetchResponse)
    (userJWT : Option String) (applicationId resourceId : String)
    (payload : ResourceInvokePayload) (invocationKey : String) :
    ((c.invoke transport (Except.ok userJWT) applicationId resourceId payload invocationKey).2).length
      = 1 := by
  unfold ResourceClient.invoke
  cases htr : transport (c.mkFetchRequest userJWT applicationId resourceId payload invocationKey) with
  | error e => simp [htr]
  | ok resp =>
    cases hj : resp.json with
    | error e => simp [htr, hj]
    | ok data => simp [htr, hj]

/-- Claim C9: when the ambient request-context lookup itself throws, the thrown
value propagates out of `invoke` unchanged as its original type — it is not
wrapped as a `ResourceInvokeError` — and no transport request is made, because
the lookup precedes the try/catch guarding the transport call. -/
theorem ambient_lookup_throw_propagates (c : ResourceClient)
    (transport : FetchRequest → Except JsThrown FetchResponse) (e : JsThrown)
    (applicationId resourceId : String) (payload : ResourceInvokePayload)
    (invocationKey : String) :
    c.invoke transport (Except.error e) applicationId resourceId payload invocationKey
      = (InvokeOutcome.thrown e, []) :=
  rfl

/-- Claim C10: every `ResourceInvokeError` raised by `invoke` has name
"ResourceInvokeError", a message equal to "Failed to invoke resource: "
followed by the original failure's message (the failure being the transport
throwing or the body failing to parse), and `httpStatus` and `requestId` both
left unset. -/
theorem invoke_error_shape (c : ResourceClient)
    (transport : FetchRequest → Except JsThrown FetchResponse)
    (userJWT : Option String) (applicationId resourceId : String)
    (payload : ResourceInvokePayload) (invocationKey : String)
    (err : ResourceInvokeError)
    (h : (c.invoke transport (Except.ok userJWT) applicationId resourceId payload invocationKey).1
          = InvokeOutcome.invokeError err) :
    err.name = "ResourceInvokeError" ∧ err.httpStatus = none ∧ err.requestId = none
      ∧ ∃ e : JsThrown, err.message = "Failed to invoke resource: " ++ jsErrorMessage e
          ∧ (transport (c.mkFetchRequest userJWT applicationId resourceId payload invocationKey)
                = Except.error e
             ∨ ∃ response,
                 transport (c.mkFetchRequest userJWT applicationId resourceId payload invocationKey)
                   = Except.ok response
                 ∧ response.json = Except.error e) := by
  unfold ResourceClient.invoke at h
  cases htr : transport (c.mkFetchRequest userJWT applicationId resourceId payload invocationKey) with
  | error e =>
    simp only [htr] at h
    cases h
    exact ⟨rfl, rfl, rfl, e, rfl, Or.inl rfl⟩
  | ok resp =>
    cases hj : resp.json with
    | error e =>
      simp only [htr, hj] at h
      cases h
      exact ⟨rfl, rfl, rfl, e, rfl, Or.inr ⟨resp, rfl, hj⟩⟩
    | ok data =>
      simp only [htr, hj] at h
      cases h

/-- Witness for C10 at a concrete throwing transport. -/
theorem invoke_error_shape_witness :
    errA.name = "ResourceInvokeError" ∧ errA.httpStatus = none ∧ errA.requestId = none
      ∧ ∃ e : JsThrown, errA.message = "Failed to invoke resource: " ++ jsErrorMessage e
          ∧ (transportFail (clientA.mkFetchRequest none "app-1" "res-1" payloadA "key-1")
                = Except.error e
             ∨ ∃ response,
                 transportFail (clientA.mkFetchRequest none "app-1" "res-1" payloadA "key-1")
                   = Except.ok response
                 ∧ response.json = Except.error e) :=
  invoke_error_shape clientA transportFail none "app-1" "res-1" payloadA "key-1" errA rfl
